import Mathlib

/-!
Verification of the category navigation view
(`src/lib/layouts/RecipeCategory.svelte`).

The component reads two stores — the static category tree (`$categories`)
and the current route (`$page.url.pathname`) — and renders:

* a sidebar listing every top-level category, each marked active when the
  current pathname contains the category path as a substring
  (`$page.url.pathname.includes(node.path)`), and
* the children of the first category whose path strictly equals the current
  pathname (`$categories.find((c) => c.path === $page.url.pathname).children || []`).

Note that the `find` call has no optional chaining: when no category path
equals the current pathname, `find` yields `undefined` and the member access
`.children` throws a TypeError, which we model as `Except.error`.
-/

namespace RecipeCategory

/-- One entry of the category tree.  The shape `{path, title, icon, children}`
is the one the component reads (`node.path`, `node.title`, `node.icon`,
`node.children`); `icon` and `children` may be absent in the data, hence
`Option`.  The tree provider itself (`$lib/stores/recipes`) supplies a list of
such nodes. -/
inductive CategoryNode where
  | mk (path title : String) (icon : Option String)
       (children : Option (List CategoryNode))

def CategoryNode.path : CategoryNode → String
  | .mk p _ _ _ => p

def CategoryNode.title : CategoryNode → String
  | .mk _ t _ _ => t

def CategoryNode.icon : CategoryNode → Option String
  | .mk _ _ i _ => i

def CategoryNode.children : CategoryNode → Option (List CategoryNode)
  | .mk _ _ _ c => c

/-- The JavaScript fault the component can raise: member access on
`undefined`. -/
inductive JsError where
  | typeError
deriving DecidableEq, Repr

/-- Embedding of `Array.prototype.find` specialised to the predicate of line 7,
`(c) => c.path === $page.url.pathname`: the first node whose path strictly
equals `p`, or `none` when there is no such node (JS `undefined`). -/
def firstExactMatch : List CategoryNode → String → Option CategoryNode
  | [], _ => none
  | c :: cs, p => if c.path = p then some c else firstExactMatch cs p

/-- Embedding of line 7,
`const childrenNodes = $categories.find((c) => c.path === $page.url.pathname).children || []`.
When `find` yields a node, `node.children || []` replaces an absent
(`undefined`, falsy) children field by the empty list; when `find` yields
`undefined`, the access `.children` throws a TypeError. -/
def childrenNodes (tree : List CategoryNode) (currentPath : String) :
    Except JsError (List CategoryNode) :=
  match firstExactMatch tree currentPath with
  | some c => .ok (c.children.getD [])
  | none => .error .typeError

/-- Embedding of ECMAScript `String.prototype.includes`: `jsIncludes s sub`
is true when `sub` occurs in `s` at some index `k`, i.e. the slice of `s`
starting at `k` with the length of `sub` equals `sub`. -/
def jsIncludes (s sub : String) : Bool :=
  (List.range (s.data.length + 1)).any
    (fun k => ((s.data.drop k).take sub.data.length) == sub.data)

/-- One rendered sidebar row (the `TOCLink` div of lines 19-22): icon, link
target, link text, and whether the `active` class is set. -/
structure TOCEntry where
  icon : Option String
  href : String
  label : String
  active : Bool
deriving DecidableEq, Repr

/-- One rendered child link (the `li` of lines 31-33). -/
structure ChildEntry where
  href : String
  label : String
deriving DecidableEq, Repr

/-- Embedding of the `{#each $categories as node}` block (lines 18-23): each
top-level node renders in order, with the `active` class set by
`class:active={$page.url.pathname.includes(node.path)}`. -/
def renderTopLevel (tree : List CategoryNode) (currentPath : String) :
    List TOCEntry :=
  tree.map (fun n => ⟨n.icon, n.path, n.title, jsIncludes currentPath n.path⟩)

/-- The render output of the component: the sidebar list and the child-link
list. -/
structure RenderOutput where
  toc : List TOCEntry
  childLinks : List ChildEntry
deriving DecidableEq, Repr

/-- Embedding of one evaluation of the component for a given tree and current
pathname.  The script block computes `childrenNodes` first (a thrown
TypeError aborts the whole component); on success the markup renders the
sidebar from `$categories` and the child list from `childrenNodes`
(lines 30-36). -/
def renderView (tree : List CategoryNode) (currentPath : String) :
    Except JsError RenderOutput :=
  match childrenNodes tree currentPath with
  | .error e => .error e
  | .ok cs => .ok ⟨renderTopLevel tree currentPath,
                   cs.map (fun n => ⟨n.path, n.title⟩)⟩

/-- The two stores the component reads: the category tree and the page
pathname. -/
structure Stores where
  categories : List CategoryNode
  pathname : String

/-- Evaluation of the component with explicit store state: the script only
reads the stores, so the state is returned unchanged beside the render
result. -/
def evalComponent (s : Stores) : Stores × Except JsError RenderOutput :=
  (s, renderView s.categories s.pathname)

/-- The two-node tree of the specification scenarios:
`[{path:"/a", title:"A", children:[{path:"/a/x", title:"X"}]},
  {path:"/b", title:"B", children:[]}]`. -/
def exTree : List CategoryNode :=
  [.mk "/a" "A" none (some [.mk "/a/x" "X" none none]),
   .mk "/b" "B" none (some [])]

/-- The first node of `exTree`. -/
def nodeA : CategoryNode := .mk "/a" "A" none (some [.mk "/a/x" "X" none none])

/-- A one-node tree whose node has no `children` field at all. -/
def leafTree : List CategoryNode := [.mk "/c" "C" none none]

/-- A one-node tree whose node has the empty string as its path. -/
def rootTree : List CategoryNode := [.mk "" "Home" none none]

/-- Characterisation of the `String.prototype.includes` embedding:
`jsIncludes s sub` holds exactly when `sub` is a contiguous substring of
`s`, i.e. `s` splits as some left part, then `sub`, then some right part. -/
theorem jsIncludes_iff (s sub : String) :
    jsIncludes s sub = true ↔ ∃ a b, s.data = a ++ sub.data ++ b := by
  unfold jsIncludes
  rw [List.any_eq_true]
  constructor
  · rintro ⟨k, -, heq⟩
    rw [beq_iff_eq] at heq
    refine ⟨s.data.take k, (s.data.drop k).drop sub.data.length, ?_⟩
    rw [List.append_assoc]
    conv_lhs => rw [← List.take_append_drop k s.data]
    congr 1
    conv_lhs => rw [← List.take_append_drop sub.data.length (s.data.drop k)]
    rw [heq]
  · rintro ⟨a, b, hab⟩
    refine ⟨a.length, List.mem_range.mpr ?_, ?_⟩
    · rw [hab]
      simp [List.length_append]
      omega
    · rw [hab, List.append_assoc, List.drop_left, List.take_left]
      exact beq_self_eq_true _

/-- Every string contains the empty string, at index 0. -/
theorem jsIncludes_empty (s : String) : jsIncludes s "" = true := by
  unfold jsIncludes
  rw [List.any_eq_true]
  exact ⟨0, List.mem_range.mpr (Nat.succ_pos _),
    by simp [show ("" : String).data = [] from rfl]⟩

/-- When no node of the tree has path `p`, the `find` embedding yields
`none` (JS `undefined`). -/
theorem firstExactMatch_eq_none (tree : List CategoryNode) (p : String)
    (h : ∀ n ∈ tree, n.path ≠ p) : firstExactMatch tree p = none := by
  induction tree with
  | nil => rfl
  | cons c cs ih =>
    rw [firstExactMatch, if_neg (h c (List.mem_cons_self c cs))]
    exact ih (fun n hn => h n (List.mem_cons_of_mem c hn))

/-- C1 counterexample: on the scenario tree with `currentPath = "/unknown"`,
the component does not produce an empty child list; evaluating it raises a
TypeError, because `find` yields `undefined` and `.children` is accessed on
it. -/
theorem noMatch_render_errors_cex :
    renderView exTree "/unknown" = Except.error JsError.typeError ∧
    ¬ ∃ out, renderView exTree "/unknown" = Except.ok out := by
  refine ⟨rfl, ?_⟩
  rintro ⟨out, hout⟩
  rw [show renderView exTree "/unknown" = Except.error JsError.typeError
      from rfl] at hout
  exact Except.noConfusion hout

/-- C1 amended: for every tree and every currentPath that equals no
top-level node path, evaluating the view raises a TypeError instead of
degrading to an empty child list. -/
theorem noMatch_render_errors (tree : List CategoryNode) (p : String)
    (h : ∀ n ∈ tree, n.path ≠ p) :
    renderView tree p = Except.error JsError.typeError := by
  rw [renderView, childrenNodes, firstExactMatch_eq_none tree p h]

/-- Witness for the amended C1 at the scenario tree and path `/unknown`. -/
theorem noMatch_render_errors_witness :
    (∀ n ∈ exTree, n.path ≠ "/unknown") ∧
    renderView exTree "/unknown" = Except.error JsError.typeError :=
  ⟨by decide, noMatch_render_errors exTree "/unknown" (by decide)⟩

/-- C2: the node at position i of the tree renders at position i of the
sidebar, and it carries the active class exactly when the current path
contains its path as a contiguous substring. -/
theorem active_iff_substring (tree : List CategoryNode) (p : String)
    (i : Nat) (n : CategoryNode) (h : tree[i]? = some n) :
    ∃ e, (renderTopLevel tree p)[i]? = some e ∧
      (e.active = true ↔ ∃ a b, p.data = a ++ n.path.data ++ b) := by
  refine ⟨⟨n.icon, n.path, n.title, jsIncludes p n.path⟩, ?_,
    jsIncludes_iff p n.path⟩
  rw [renderTopLevel, List.getElem?_map, h]
  rfl

/-- Witness for C2: node A of the scenario tree at current path `/a/x`. -/
theorem active_iff_substring_witness :
    ∃ e, (renderTopLevel exTree "/a/x")[0]? = some e ∧
      (e.active = true ↔
        ∃ a b, ("/a/x" : String).data = a ++ nodeA.path.data ++ b) :=
  active_iff_substring exTree "/a/x" 0 nodeA rfl

/-- C3: when some top-level node path equals the current path exactly, the
view renders successfully and its child list is exactly the children of the
first such node (in order, empty when the field is absent). -/
theorem exactMatch_childList (tree : List CategoryNode) (p : String)
    (n : CategoryNode) (hf : firstExactMatch tree p = some n) :
    ∃ out, renderView tree p = Except.ok out ∧
      out.childLinks = (n.children.getD []).map (fun c => ⟨c.path, c.title⟩) := by
  refine ⟨⟨renderTopLevel tree p,
    (n.children.getD []).map (fun c => ⟨c.path, c.title⟩)⟩, ?_, rfl⟩
  rw [renderView, childrenNodes, hf]

/-- Witness for C3: the scenario tree at current path `/a`. -/
theorem exactMatch_childList_witness :
    ∃ out, renderView exTree "/a" = Except.ok out ∧
      out.childLinks =
        (nodeA.children.getD []).map (fun c => ⟨c.path, c.title⟩) :=
  exactMatch_childList exTree "/a" nodeA rfl

/-- C4: a successful render preserves order: projecting the sidebar to
(href, label) pairs gives the tree in provider order, and projecting the
child links gives the active node children in stored order. -/
theorem render_preserves_order (tree : List CategoryNode) (p : String)
    (n : CategoryNode) (out : RenderOutput)
    (hf : firstExactMatch tree p = some n)
    (h : renderView tree p = Except.ok out) :
    out.toc.map (fun e => (e.href, e.label)) =
      tree.map (fun c => (c.path, c.title)) ∧
    out.childLinks.map (fun e => (e.href, e.label)) =
      (n.children.getD []).map (fun c => (c.path, c.title)) := by
  rw [renderView, childrenNodes, hf] at h
  injection h with h
  subst h
  constructor
  · simp [renderTopLevel, List.map_map, Function.comp]
  · simp [List.map_map, Function.comp]

/-- Witness for C4: the scenario tree at current path `/a`. -/
theorem render_preserves_order_witness :
    (RenderOutput.mk [⟨none, "/a", "A", true⟩, ⟨none, "/b", "B", false⟩]
        [⟨"/a/x", "X"⟩]).toc.map (fun e => (e.href, e.label)) =
      exTree.map (fun c => (c.path, c.title)) ∧
    (RenderOutput.mk [⟨none, "/a", "A", true⟩, ⟨none, "/b", "B", false⟩]
        [⟨"/a/x", "X"⟩]).childLinks.map (fun e => (e.href, e.label)) =
      (nodeA.children.getD []).map (fun c => (c.path, c.title)) :=
  render_preserves_order exTree "/a" nodeA _ rfl rfl

/-- C5: the scenario tree at current path `/a` renders the sidebar
[{A, active}, {B, inactive}] and the child list [{X}]. -/
theorem scenario_slash_a :
    renderView exTree "/a" =
      Except.ok ⟨[⟨none, "/a", "A", true⟩, ⟨none, "/b", "B", false⟩],
                 [⟨"/a/x", "X"⟩]⟩ := by
  rfl

/-- C6 counterexample: at current path `/a/x` the scenario tree does not
render the claimed output (sidebar with A active plus empty child list);
the component raises a TypeError instead. -/
theorem scenario_slash_a_x_cex :
    renderView exTree "/a/x" ≠
      Except.ok ⟨[⟨none, "/a", "A", true⟩, ⟨none, "/b", "B", false⟩], []⟩ := by
  intro h
  rw [show renderView exTree "/a/x" = Except.error JsError.typeError
      from rfl] at h
  exact Except.noConfusion h

/-- C6 amended: at current path `/a/x` the sidebar computation alone would
mark A active and B inactive (the substring highlight fires on `/a`), but
the component as a whole raises a TypeError because `/a/x` matches no
top-level path exactly, so no child list (and no sidebar) is rendered. -/
theorem scenario_slash_a_x_amended :
    renderTopLevel exTree "/a/x" =
      [⟨none, "/a", "A", true⟩, ⟨none, "/b", "B", false⟩] ∧
    renderView exTree "/a/x" = Except.error JsError.typeError :=
  ⟨rfl, rfl⟩

/-- C7: evaluating the component returns the store state unchanged: no
category node is created, mutated or destroyed. -/
theorem eval_leaves_stores_unchanged (s : Stores) : (evalComponent s).1 = s :=
  rfl

/-- C8: for a fixed store state, any two evaluations of the component
produce the same render output. -/
theorem eval_deterministic (s : Stores) (o₁ o₂ : Except JsError RenderOutput)
    (h₁ : (evalComponent s).2 = o₁) (h₂ : (evalComponent s).2 = o₂) :
    o₁ = o₂ :=
  h₁.symm.trans h₂

/-- Witness for C8: two evaluations on the scenario tree at `/a`. -/
theorem eval_deterministic_witness :
    (Except.ok ⟨[⟨none, "/a", "A", true⟩, ⟨none, "/b", "B", false⟩],
        [⟨"/a/x", "X"⟩]⟩ : Except JsError RenderOutput) =
      Except.ok ⟨[⟨none, "/a", "A", true⟩, ⟨none, "/b", "B", false⟩],
        [⟨"/a/x", "X"⟩]⟩ :=
  eval_deterministic ⟨exTree, "/a"⟩ _ _ rfl rfl

/-- C9: when the first exact-match node exists but its children field is
absent, the `|| []` fallback makes the rendered child list empty, with no
error. -/
theorem absent_children_fallback (tree : List CategoryNode) (p : String)
    (n : CategoryNode) (hf : firstExactMatch tree p = some n)
    (hc : n.children = none) :
    ∃ out, renderView tree p = Except.ok out ∧ out.childLinks = [] := by
  refine ⟨⟨renderTopLevel tree p, []⟩, ?_, rfl⟩
  simp [renderView, childrenNodes, hf, hc]

/-- Witness for C9: a tree whose only node has no children field. -/
theorem absent_children_fallback_witness :
    ∃ out, renderView leafTree "/c" = Except.ok out ∧ out.childLinks = [] :=
  absent_children_fallback leafTree "/c" (.mk "/c" "C" none none) rfl rfl

/-- C10: a top-level node whose path is the empty string renders with the
active class set, whatever the current path is. -/
theorem empty_path_always_active (tree : List CategoryNode) (p : String)
    (i : Nat) (n : CategoryNode) (h : tree[i]? = some n)
    (hp : n.path = "") :
    ∃ e, (renderTopLevel tree p)[i]? = some e ∧ e.active = true := by
  refine ⟨⟨n.icon, n.path, n.title, jsIncludes p n.path⟩, ?_, ?_⟩
  · rw [renderTopLevel, List.getElem?_map, h]
    rfl
  · rw [hp]
    exact jsIncludes_empty p

/-- Witness for C10: an empty-path node at an unrelated current path. -/
theorem empty_path_always_active_witness :
    ∃ e, (renderTopLevel rootTree "/whatever")[0]? = some e ∧
      e.active = true :=
  empty_path_always_active rootTree "/whatever" 0 (.mk "" "Home" none none)
    rfl rfl

end RecipeCategory
